import Mathlib

/-!
Shallow embedding of `src/app.py` (Rehabilitation Assistant).

The program is a three-step wizard: select a body part (symptom),
tick the physical tests that caused pain, then compute a set of
conditions from the failed tests, look up the recommended exercises
and render them both on screen and in a generated PDF document.

Python dictionaries with possibly absent keys are modelled as
functions into `Option`; a raised `KeyError` is modelled as the
whole computation returning `none`.
-/

/-- A row of `data/symptoms.csv`. -/
structure Symptom where
  symptom_id : Nat
  symptom_name : String
deriving DecidableEq, Repr

/-- A row of `data/tests.csv`. -/
structure Test where
  test_id : Nat
  symptom_id : Nat
  test_name : String
  description : String
  positive_indication : String
deriving DecidableEq, Repr

/-- A row of `data/exercises.csv`.  `image` is the optional image file
name; the empty string stands for a missing value (a falsy cell). -/
structure Exercise where
  exercise_name : String
  description : String
  sets : Nat
  reps : Nat
  frequency : String
  condition : String
  image : String
deriving DecidableEq, Repr

/-- One iteration of the diagnostic loop (app.py lines 144-146): look
the test name up in test_results and, when the stored result is true,
add the positive indication to the condition set.  A `none` from the
lookup is a Python KeyError: it aborts the whole computation, hence
the `Option` accumulator. -/
def diagnoseStep (testResults : String → Option Bool)
    (acc : Option (Finset String)) (t : Test) : Option (Finset String) :=
  match acc with
  | none => none
  | some conditions =>
    match testResults t.test_name with
    | none => none
    | some failed => if failed then some (insert t.positive_indication conditions) else some conditions

/-- The diagnostic computation of app.py lines 143-146: start from the
empty set `conditions = set()` and run the loop over `relevant_tests`. -/
def diagnose (testResults : String → Option Bool) (relevantTests : List Test) :
    Option (Finset String) :=
  relevantTests.foldl (diagnoseStep testResults) (some ∅)

/-- The set of positive indications of the tests that looked up `true`:
the value the diagnostic loop computes when no lookup raises. -/
def condSet (testResults : String → Option Bool) (relevantTests : List Test) : Finset String :=
  ((relevantTests.filter (fun t => decide (testResults t.test_name = some true))).map
    (fun t => t.positive_indication)).toFinset

lemma foldl_diagnoseStep_none (testResults : String → Option Bool) (l : List Test) :
    l.foldl (diagnoseStep testResults) none = none := by
  induction l with
  | nil => rfl
  | cons t ts ih => simpa [diagnoseStep] using ih

lemma foldl_diagnoseStep (testResults : String → Option Bool) (l : List Test)
    (s : Finset String) :
    l.foldl (diagnoseStep testResults) (some s) =
      if l.all (fun t => (testResults t.test_name).isSome) then
        some (s ∪ condSet testResults l)
      else none := by
  induction l generalizing s with
  | nil => simp [condSet]
  | cons t ts ih =>
    cases h : testResults t.test_name with
    | none =>
      simp [List.foldl_cons, diagnoseStep, h, foldl_diagnoseStep_none]
    | some b =>
      cases b with
      | false =>
        simp only [List.foldl_cons, diagnoseStep, h, if_neg Bool.false_ne_true, ih]
        simp [condSet, h]
      | true =>
        simp only [List.foldl_cons, diagnoseStep, h, if_true]
        rw [ih (insert t.positive_indication s)]
        have hcond : condSet testResults (t :: ts) = insert t.positive_indication (condSet testResults ts) := by
          simp [condSet, List.filter_cons, h]
        simp only [List.all_cons, h, Option.isSome_some, Bool.true_and]
        by_cases hall : ts.all (fun t => (testResults t.test_name).isSome)
        · rw [if_pos hall, if_pos hall, hcond, Finset.insert_union, Finset.union_insert]
        · rw [if_neg hall, if_neg hall]

/-- Closed form of `diagnose`: it fails exactly when the name of some
relevant test is absent from `testResults`, and otherwise returns
`condSet`. -/
lemma diagnose_eq (testResults : String → Option Bool) (l : List Test) :
    diagnose testResults l =
      if l.all (fun t => (testResults t.test_name).isSome) then
        some (condSet testResults l)
      else none := by
  simpa [diagnose] using foldl_diagnoseStep testResults l ∅

lemma mem_condSet (testResults : String → Option Bool) (l : List Test) (x : String) :
    x ∈ condSet testResults l ↔
      ∃ t ∈ l, testResults t.test_name = some true ∧ t.positive_indication = x := by
  simp only [condSet, List.mem_toFinset, List.mem_map, List.mem_filter, decide_eq_true_eq]
  constructor
  · rintro ⟨t, ⟨ht, htrue⟩, hx⟩
    exact ⟨t, ht, htrue, hx⟩
  · rintro ⟨t, ht, htrue, hx⟩
    exact ⟨t, ⟨ht, htrue⟩, hx⟩

/-- The pandas isin filter of app.py line 157: it keeps, in their
original row order, exactly the exercise rows whose condition column
value is in the given set. -/
def exercisesFor (exercises : List Exercise) (conditions : Finset String) : List Exercise :=
  exercises.filter (fun e => decide (e.condition ∈ conditions))

/-- Python `s.replace` of each underscore by a space. -/
def pyReplaceUnderscore (s : String) : String :=
  String.mk (s.data.map (fun c => if c = '_' then ' ' else c))

/-- ASCII model of Python `str.capitalize`: first character uppercased,
every remaining character lowercased.  (The condition identifiers of the
data files are ASCII, so the ASCII case maps suffice.) -/
def pyCapitalize (s : String) : String :=
  match s.data with
  | [] => ""
  | c :: cs => String.mk (c.toUpper :: cs.map Char.toLower)

/-- The condition label shown on screen (app.py line 151) and in the
document (line 48): `condition.replace` of underscores by spaces, then
`capitalize`. -/
def renderCondition (c : String) : String :=
  pyCapitalize (pyReplaceUnderscore c)

/-- Modelled from the spec (section 4.3 and claim C8), for comparison
with `renderCondition`: underscores replaced by spaces and the first
letter capitalized, the remaining characters untouched. -/
def specRenderCondition (c : String) : String :=
  match (pyReplaceUnderscore c).data with
  | [] => ""
  | ch :: cs => String.mk (ch.toUpper :: cs)

/-- Lines of the Diagnostic section of `generate_pdf` (app.py lines
46-50), given the iteration order of the condition set. -/
def pdfDiagnosticSection (conditions : List String) : List String :=
  if conditions = [] then ["No specific conditions identified."]
  else conditions.map (fun c => "- " ++ renderCondition c)

/-- On-screen Diagnostic output of `main` (app.py lines 148-151 and
189): a header sentence and one line per condition, or the fallback
sentence when the condition set is empty. -/
def screenDiagnosticOutput (conditions : List String) : List String :=
  if conditions = [] then
    ["No specific conditions identified. Please consult a healthcare professional."]
  else
    "Based on your symptoms, you may have the following conditions:" ::
      conditions.map (fun c => "- " ++ renderCondition c)

/-- Header row of the Training Advice table (app.py line 58). -/
def pdfHeaderRow : List String :=
  ["Exercise", "Description", "Sets x Reps", "Frequency"]

/-- One data row of the Training Advice table (app.py lines 60-65). -/
def pdfExerciseRow (e : Exercise) : List String :=
  [e.exercise_name, e.description, toString e.sets ++ "x" ++ toString e.reps, e.frequency]

/-- The Training Advice table of `generate_pdf` (app.py lines 56-79):
`none` when `recommended_exercises` is empty, in which case the
fallback paragraph is emitted instead of a table. -/
def pdfTrainingTable (recommended : List Exercise) : Option (List (List String)) :=
  if recommended = [] then none
  else some (pdfHeaderRow :: recommended.map pdfExerciseRow)

/-- Exercise names appearing in the Training Advice table of the
document: the first cell of each data row ([] when the table is
absent). -/
def pdfTableNames (recommended : List Exercise) : List String :=
  match pdfTrainingTable recommended with
  | none => []
  | some rows => rows.tail.map (fun row => row.headD "")

/-- One row of the on-screen exercise table. -/
structure ScreenRow where
  name : String
  description : String
  setsReps : String
  frequency : String
  image : String
deriving DecidableEq, Repr

/-- One entry of `exercise_data` (app.py lines 161-170).  `imageExists`
models `os.path.exists`; an empty `image` field is a falsy cell, so no
path is built for it. -/
def screenRow (imageExists : String → Bool) (e : Exercise) : ScreenRow :=
  let imagePath : Option String :=
    if e.image ≠ "" then some ("pictures/" ++ e.image) else none
  let imageHtml : String :=
    match imagePath with
    | some p =>
      if imageExists p then "<img src=\"" ++ p ++ "\" style=\"height:100px;\">" else ""
    | none => ""
  { name := e.exercise_name
    description := e.description
    setsReps := toString e.sets ++ "x" ++ toString e.reps
    frequency := e.frequency
    image := imageHtml }

/-- The on-screen exercise table (app.py lines 160-178), one `ScreenRow`
per recommended exercise, in order. -/
def screenTable (imageExists : String → Bool) (recommended : List Exercise) : List ScreenRow :=
  recommended.map (screenRow imageExists)

/-- Helper for `pdUnique`: drop the values already seen, keep the
order of first occurrence. -/
def pdUniqueAux (seen : List String) : List String → List String
  | [] => []
  | a :: l => if a ∈ seen then pdUniqueAux seen l else a :: pdUniqueAux (a :: seen) l

/-- pandas `Series.unique` applied to the symptom names (app.py line
98): distinct values in order of first occurrence. -/
def pdUnique (l : List String) : List String :=
  pdUniqueAux [] l

/-- Step 1 of the wizard (app.py lines 98-112): from the symptom table
and the optional `body_part` query value, the preselected body part of
the selectbox and whether the invalid-deep-link warning was shown.
`none` models the IndexError raised when the symptom table is empty. -/
def selectStep (symptoms : List Symptom) (queryBodyPart : Option String) :
    Option (String × Bool) :=
  match pdUnique (symptoms.map (fun s => s.symptom_name)) with
  | [] => none
  | first :: rest =>
    let bodyParts := first :: rest
    let dflt := queryBodyPart.getD first
    let warned := decide (dflt ∉ bodyParts)
    let dflt2 := if dflt ∈ bodyParts then dflt else first
    some (bodyParts.getD (bodyParts.indexOf dflt2) "", warned)

/-- app.py line 94: the test_mode flag is on iff the first value of the
`test_mode` query parameter is exactly the string "true" (absent
parameter defaults to the empty string). -/
def testModeFlag (values : Option (List String)) : Bool :=
  ((values.getD [""]).headD "") == "true"

/-- app.py line 139: Step 3 runs iff the confirmation button was
clicked or the test_mode flag is on. -/
def showReportStep (buttonClicked : Bool) (testMode : Bool) : Bool :=
  buttonClicked || testMode

lemma condSet_empty_of_all_false (testResults : String → Option Bool) (l : List Test)
    (h : ∀ t ∈ l, testResults t.test_name = some false) :
    condSet testResults l = ∅ := by
  have hfil : l.filter (fun t => decide (testResults t.test_name = some true)) = [] := by
    rw [List.filter_eq_nil_iff]
    intro t ht
    simp [h t ht]
  simp [condSet, hfil]

lemma all_isSome_of_all_false (testResults : String → Option Bool) (l : List Test)
    (h : ∀ t ∈ l, testResults t.test_name = some false) :
    l.all (fun t => (testResults t.test_name).isSome) := by
  rw [List.all_eq_true]
  intro t ht
  simp [h t ht]

/-- C1 counterexample: with an empty testResults mapping and one relevant
test, the diagnostic computation raises a KeyError (modelled `none`)
instead of returning the empty set the claim prescribes for it. -/
theorem diagnose_total_cex :
    diagnose (fun _ => none) [⟨1, 1, "squat test", "d", "cond_a"⟩] = none ∧
      diagnose (fun _ => none) [⟨1, 1, "squat test", "d", "cond_a"⟩] ≠
        some (∅ : Finset String) :=
  ⟨rfl, fun h => Option.noConfusion h⟩

/-- C1 (amended): whenever testResults is defined on the name of every
test in relevantTests, the diagnostic computation returns exactly the
set of positive indications of the tests whose result is true
(duplicates collapse since the result is a set). -/
theorem diagnose_exact_of_total (testResults : String → Option Bool)
    (relevantTests : List Test)
    (h : ∀ t ∈ relevantTests, (testResults t.test_name).isSome) :
    ∃ s, diagnose testResults relevantTests = some s ∧
      ∀ x, x ∈ s ↔ ∃ t ∈ relevantTests,
        testResults t.test_name = some true ∧ t.positive_indication = x := by
  refine ⟨condSet testResults relevantTests, ?_, fun x => mem_condSet _ _ x⟩
  rw [diagnose_eq, if_pos (by rw [List.all_eq_true]; exact h)]

/-- Witness for `diagnose_exact_of_total` at a concrete input. -/
theorem diagnose_exact_of_total_witness :
    ∃ s, diagnose (fun n => if n = "squat test" then some true else some false)
        [⟨1, 1, "squat test", "d", "cond_a"⟩] = some s ∧
      ∀ x, x ∈ s ↔ ∃ t ∈ [(⟨1, 1, "squat test", "d", "cond_a"⟩ : Test)],
        (fun n => if n = "squat test" then some true else some false) t.test_name =
            some true ∧ t.positive_indication = x :=
  diagnose_exact_of_total _ _ (by decide)

/-- C2: the exercise lookup is sound and complete: an exercise row is
returned for the condition set C iff it is a row of the exercises table
and its condition is a member of C. -/
theorem exercisesFor_sound_complete (exercises : List Exercise) (C : Finset String)
    (e : Exercise) :
    e ∈ exercisesFor exercises C ↔ e ∈ exercises ∧ e.condition ∈ C := by
  simp [exercisesFor, List.mem_filter]

/-- C3 counterexample: a test whose name is absent from testResults does
not just contribute nothing: it makes the whole computation fail, losing
even the indication of the other test that did look up true. -/
theorem diagnose_missing_key_cex :
    diagnose (fun n => if n = "step test" then some true else none)
      [⟨3, 2, "step test", "d", "cond_c"⟩, ⟨4, 2, "hop test", "d", "cond_d"⟩] = none := by
  decide

/-- C3 (amended): the diagnostic computation fails (KeyError) exactly
when some test in relevantTests has a name absent from testResults; a
missing key is an error, not a not-failed default. -/
theorem diagnose_fails_iff_missing (testResults : String → Option Bool)
    (relevantTests : List Test) :
    diagnose testResults relevantTests = none ↔
      ∃ t ∈ relevantTests, testResults t.test_name = none := by
  rw [diagnose_eq]
  by_cases hall : relevantTests.all (fun t => (testResults t.test_name).isSome)
  · rw [if_pos hall]
    constructor
    · intro h
      exact Option.noConfusion h
    · rintro ⟨t, ht, hnone⟩
      rw [List.all_eq_true] at hall
      have := hall t ht
      rw [hnone] at this
      exact Bool.noConfusion this
  · rw [if_neg hall]
    constructor
    · intro _
      by_contra hno
      push_neg at hno
      apply hall
      rw [List.all_eq_true]
      intro t ht
      cases hh : testResults t.test_name with
      | none => exact absurd hh (hno t ht)
      | some b => simp
    · intro _
      rfl

/-- C4: an all-false testResults mapping diagnoses the empty condition
set, and rendering the empty set yields the fallback sentence both in
the on-screen output and in the Diagnostic section of the document. -/
theorem diagnose_all_false_fallback (testResults : String → Option Bool)
    (relevantTests : List Test)
    (h : ∀ t ∈ relevantTests, testResults t.test_name = some false) :
    ∃ s, diagnose testResults relevantTests = some s ∧ s = ∅ ∧
      screenDiagnosticOutput s.toList =
        ["No specific conditions identified. Please consult a healthcare professional."] ∧
      pdfDiagnosticSection s.toList = ["No specific conditions identified."] := by
  refine ⟨∅, ?_, rfl, ?_, ?_⟩
  · rw [diagnose_eq, if_pos (all_isSome_of_all_false _ _ h),
      condSet_empty_of_all_false _ _ h]
  · simp [screenDiagnosticOutput, Finset.toList_empty]
  · simp [pdfDiagnosticSection, Finset.toList_empty]

/-- Witness for `diagnose_all_false_fallback` at a concrete input. -/
theorem diagnose_all_false_fallback_witness :
    ∃ s, diagnose (fun _ => some false) [⟨5, 3, "twist test", "d", "cond_e"⟩] = some s ∧
      s = ∅ ∧
      screenDiagnosticOutput s.toList =
        ["No specific conditions identified. Please consult a healthcare professional."] ∧
      pdfDiagnosticSection s.toList = ["No specific conditions identified."] :=
  diagnose_all_false_fallback _ _ (fun _ _ => rfl)

/-- C5: the diagnostic computation is order-independent: permuting the
relevantTests sequence leaves the result unchanged. -/
theorem diagnose_perm_invariant (testResults : String → Option Bool)
    (l1 l2 : List Test) (h : l1.Perm l2) :
    diagnose testResults l1 = diagnose testResults l2 := by
  rw [diagnose_eq, diagnose_eq]
  have hall : l1.all (fun t => (testResults t.test_name).isSome) =
      l2.all (fun t => (testResults t.test_name).isSome) := by
    rw [Bool.eq_iff_iff, List.all_eq_true, List.all_eq_true]
    exact ⟨fun H t ht => H t (h.mem_iff.2 ht), fun H t ht => H t (h.mem_iff.1 ht)⟩
  have hset : condSet testResults l1 = condSet testResults l2 :=
    List.toFinset_eq_of_perm _ _ ((h.filter _).map _)
  rw [hall, hset]

/-- Witness for `diagnose_perm_invariant` at a concrete input. -/
theorem diagnose_perm_invariant_witness :
    diagnose (fun n => if n = "squat test" then some true else some false)
      [⟨1, 1, "squat test", "d", "cond_a"⟩, ⟨2, 1, "hop test", "d", "cond_b"⟩] =
    diagnose (fun n => if n = "squat test" then some true else some false)
      [⟨2, 1, "hop test", "d", "cond_b"⟩, ⟨1, 1, "squat test", "d", "cond_a"⟩] :=
  diagnose_perm_invariant _ _ _ (by decide)

lemma screenTable_names (imageExists : String → Bool) (recommended : List Exercise) :
    (screenTable imageExists recommended).map ScreenRow.name =
      recommended.map Exercise.exercise_name := by
  rw [screenTable, List.map_map]
  rfl

lemma pdfTableNames_eq (recommended : List Exercise) :
    pdfTableNames recommended = recommended.map Exercise.exercise_name := by
  by_cases h : recommended = []
  · subst h
    rfl
  · rw [pdfTableNames, pdfTrainingTable, if_neg h]
    simp only [List.tail_cons, List.map_map]
    rfl

/-- C6: for the same condition set, the set of exercise names in the
on-screen table equals the set of exercise names in the Training
Advice table of the document. -/
theorem screen_pdf_names_set_eq (exercises : List Exercise) (C : Finset String)
    (imageExists : String → Bool) :
    ((screenTable imageExists (exercisesFor exercises C)).map ScreenRow.name).toFinset =
      (pdfTableNames (exercisesFor exercises C)).toFinset := by
  rw [screenTable_names, pdfTableNames_eq]

/-- C10: both tables list the recommended exercises in the original row
order of the exercises table: their name columns are equal as lists,
they equal the order-preserving filter of the table, and the
recommended rows form a sublist of the table. -/
theorem tables_preserve_file_order (exercises : List Exercise) (C : Finset String)
    (imageExists : String → Bool) :
    (screenTable imageExists (exercisesFor exercises C)).map ScreenRow.name =
        pdfTableNames (exercisesFor exercises C) ∧
      pdfTableNames (exercisesFor exercises C) =
        (exercises.filter (fun e => decide (e.condition ∈ C))).map Exercise.exercise_name ∧
      (exercisesFor exercises C).Sublist exercises := by
  refine ⟨?_, ?_, ?_⟩
  · rw [screenTable_names, pdfTableNames_eq]
  · rw [pdfTableNames_eq, exercisesFor]
  · exact List.filter_sublist _

lemma getD_indexOf_of_mem {l : List String} {x : String} (hx : x ∈ l) :
    l.getD (l.indexOf x) "" = x := by
  have hlt : l.indexOf x < l.length := List.indexOf_lt_length.2 hx
  rw [List.getD_eq_getElem l "" hlt]
  exact List.indexOf_get hlt

/-- C7: with a body_part deep-link value present, the selection step
never aborts; an invalid value shows the warning and falls back to the
first symptom name, a valid value is preselected with no warning. -/
theorem selectStep_deep_link (symptoms : List Symptom) (v first : String)
    (rest : List String)
    (h : pdUnique (symptoms.map (fun s => s.symptom_name)) = first :: rest) :
    selectStep symptoms (some v) =
      some (if v ∈ first :: rest then (v, false) else (first, true)) := by
  rw [selectStep, h]
  by_cases hv : v ∈ first :: rest
  · rw [if_pos hv]
    simp only [Option.getD_some, hv, not_true, if_pos]
    rw [getD_indexOf_of_mem hv]
    rfl
  · rw [if_neg hv]
    simp only [Option.getD_some, hv, not_false_iff, if_neg]
    rw [getD_indexOf_of_mem (List.mem_cons_self first rest)]
    rfl

/-- Witness for `selectStep_deep_link`: one invalid and one valid
deep-link value over a two-symptom table. -/
theorem selectStep_deep_link_witness :
    selectStep [⟨1, "Knee"⟩, ⟨2, "Shoulder"⟩] (some "Wrist") =
        some (if "Wrist" ∈ ["Knee", "Shoulder"] then ("Wrist", false) else ("Knee", true)) ∧
      selectStep [⟨1, "Knee"⟩, ⟨2, "Shoulder"⟩] (some "Shoulder") =
        some (if "Shoulder" ∈ ["Knee", "Shoulder"] then ("Shoulder", false) else ("Knee", true)) :=
  ⟨selectStep_deep_link _ _ _ _ rfl, selectStep_deep_link _ _ _ _ rfl⟩

lemma renderCondition_data_cons (ch : Char) (rest : List Char) :
    (renderCondition (String.mk (ch :: rest))).data =
      (if ch = '_' then ' ' else ch).toUpper ::
        (rest.map (fun c => if c = '_' then ' ' else c)).map Char.toLower := rfl

lemma map_lower_sub_getD (rest : List Char) (j : Nat) :
    ((rest.map (fun c => if c = '_' then ' ' else c)).map Char.toLower).getD j ' ' =
      (if rest.getD j ' ' = '_' then ' ' else (rest.getD j ' ').toLower) := by
  induction rest generalizing j with
  | nil =>
    simp only [List.map_nil, List.getD_nil]
    decide
  | cons a l ih =>
    cases j with
    | zero =>
      simp only [List.map_cons, List.getD_cons_zero]
      by_cases h : a = '_'
      · subst h
        decide
      · simp [h]
    | succ j =>
      simp only [List.map_cons, List.getD_cons_succ]
      exact ih j

/-- C8 counterexample: Python `capitalize` also lowercases every
character after the first, so an identifier with interior capital
letters is not rendered as the claim describes: the code shows
"Acl tear" where the description in the claim gives "ACL tear". -/
theorem renderCondition_spec_cex :
    renderCondition "ACL_tear" = "Acl tear" ∧
      specRenderCondition "ACL_tear" = "ACL tear" ∧
      renderCondition "ACL_tear" ≠ specRenderCondition "ACL_tear" := by
  refine ⟨?_, ?_, ?_⟩ <;> decide

/-- C8 (amended): a condition identifier is rendered, on screen and in
the document, with each underscore replaced by a space, the first
character uppercased and every later character lowercased: the
rendered label has the length of the identifier and the stated
character at every position. -/
theorem renderCondition_chars (c : String) (i : Nat) :
    (renderCondition c).data.length = c.data.length ∧
      (renderCondition c).data.getD i ' ' =
        (if c.data.getD i ' ' = '_' then ' '
         else if i = 0 then (c.data.getD i ' ').toUpper
         else (c.data.getD i ' ').toLower) ∧
      pdfDiagnosticSection [c] = ["- " ++ renderCondition c] ∧
      screenDiagnosticOutput [c] =
        ["Based on your symptoms, you may have the following conditions:",
         "- " ++ renderCondition c] := by
  refine ⟨?_, ?_, ?_, ?_⟩
  · cases c with
    | mk l =>
      cases l with
      | nil => rfl
      | cons ch rest =>
        rw [renderCondition_data_cons]
        simp [List.length_map]
  · cases c with
    | mk l =>
      cases l with
      | nil =>
        have hdata : (renderCondition (String.mk ([] : List Char))).data = [] := rfl
        rw [hdata]
        simp only [List.getD_nil]
        rw [if_neg (by decide)]
        by_cases hi : i = 0
        · rw [if_pos hi]
          decide
        · rw [if_neg hi]
          decide
      | cons ch rest =>
        rw [renderCondition_data_cons]
        cases i with
        | zero =>
          simp only [List.getD_cons_zero, if_pos rfl]
          by_cases h : ch = '_'
          · subst h
            decide
          · simp [h]
        | succ j =>
          simp only [List.getD_cons_succ, if_neg (Nat.succ_ne_zero j)]
          exact map_lower_sub_getD rest j
  · simp [pdfDiagnosticSection]
  · simp [screenDiagnosticOutput]

/-- C9: the test_mode flag is on iff the first parameter value is
exactly the string "true"; "True", "1" and an absent parameter leave
it off, and with the flag off the report step runs iff the
confirmation button was clicked (with it on, it always runs). -/
theorem testModeFlag_spec (values : Option (List String)) (buttonClicked : Bool) :
    (testModeFlag values = true ↔ ((values.getD [""]).headD "") = "true") ∧
      showReportStep buttonClicked false = buttonClicked ∧
      showReportStep buttonClicked true = true ∧
      testModeFlag none = false ∧
      testModeFlag (some ["True"]) = false ∧
      testModeFlag (some ["1"]) = false ∧
      testModeFlag (some ["true"]) = true := by
  refine ⟨?_, ?_, ?_, ?_, ?_, ?_, ?_⟩
  · simp [testModeFlag]
  · simp [showReportStep]
  · simp [showReportStep]
  · decide
  · decide
  · decide
  · decide
